import Mathlib

/-!
# Verification of the aiwebbuilder-swarm core

Shallow embedding of the event-sourcing engine and the AI spend guard of
the repository: the reducer (applyEvent), the atomic append+reduce SQL
function (apply_project_event), the commit path of the mutate endpoint,
the budget guard (checkBudget, get_user_ai_cost, get_project_ai_cost),
the cost table (calculateCost), the usage-ledger recording of the
ai-proxy endpoint, and the fixed-window rate limiter
(check_rate_limit / checkRateLimit).

Dollar amounts and JS numbers are modelled as rationals; timestamps as
natural-number epoch seconds.  RPC results that can be SQL/JSON null are
modelled as Option.
-/

deriving instance DecidableEq for Except

/-- Minimal JSON value universe, enough for event payloads. -/
inductive JsonVal where
  | jstr (s : String)
  | jnum (q : ℚ)
  | jbool (b : Bool)
  | jnull
  deriving DecidableEq, Repr

/-- Lookup of a key in a JSON object (modelled as an association list). -/
def jsonLookup (obj : List (String × JsonVal)) (key : String) : Option JsonVal :=
  (obj.find? (fun kv => kv.1 = key)).map (fun kv => kv.2)

/-- Text extraction from a jsonb value, as the SQL ->> operator does:
strings yield their contents, numbers and booleans their text form,
JSON null and a missing key yield SQL NULL (none). -/
def jsonbTextOf : Option JsonVal → Option String
  | some (JsonVal.jstr s) => some s
  | some (JsonVal.jnum q) => some (toString q)
  | some (JsonVal.jbool b) => some (toString b)
  | some JsonVal.jnull => none
  | none => none

/- ## Budget guard (supabase/functions/ai-proxy/index.ts and migration 0002_ai_usage.sql) -/

/-- Status column of an ai_usage row: the string "ok" or "failed". -/
inductive UsageStatus where
  | ok
  | failed
  deriving DecidableEq, Repr

/-- One row of the ai_usage ledger table. -/
structure UsageRecord where
  user_id : String
  project_id : Option String
  provider : String
  model : String
  tokens_in : ℚ
  tokens_out : ℚ
  cost_usd : ℚ
  status : UsageStatus
  created_at : ℕ
  deriving DecidableEq, Repr

/-- Daily user budget cap in USD: USER_DAILY_BUDGET = 10.00 (ai-proxy/index.ts line 26). -/
def USER_DAILY_BUDGET : ℚ := 10.00

/-- Daily project budget cap in USD: PROJECT_DAILY_BUDGET = 5.00 (ai-proxy/index.ts line 27). -/
def PROJECT_DAILY_BUDGET : ℚ := 5.00

/-- SQL function get_user_ai_cost: the sum of cost_usd over ai_usage rows of
the given user with status = "ok" and created_at >= since, COALESCEd to 0
(an empty sum is 0 here as well). -/
def get_user_ai_cost (rows : List UsageRecord) (user_uuid : String) (since : ℕ) : ℚ :=
  ((rows.filter (fun r =>
      r.user_id = user_uuid ∧ r.status = UsageStatus.ok ∧ since ≤ r.created_at)).map
    (fun r => r.cost_usd)).sum

/-- SQL function get_project_ai_cost: the sum of cost_usd over ai_usage rows of
the given project with status = "ok" and created_at >= since, COALESCEd to 0. -/
def get_project_ai_cost (rows : List UsageRecord) (project_uuid : String) (since : ℕ) : ℚ :=
  ((rows.filter (fun r =>
      r.project_id = some project_uuid ∧ r.status = UsageStatus.ok ∧ since ≤ r.created_at)).map
    (fun r => r.cost_usd)).sum

/-- JS truthiness of a nullable numeric RPC result: null and 0 are falsy,
every other number is truthy. -/
def numTruthy (x : Option ℚ) : Bool :=
  match x with
  | none => false
  | some v => v ≠ 0

/-- Return shape of checkBudget. -/
structure BudgetResult where
  allowed : Bool
  reason : Option String
  deriving DecidableEq, Repr

/-- Function checkBudget of ai-proxy/index.ts.  The rolling daily cost of the
user (and, when a project id is given, of the project) arrives from an RPC;
the guard at line 72 is written `if (userCost && userCost >= USER_DAILY_BUDGET)`
and the one at line 83 is `if (projectCost && projectCost >= PROJECT_DAILY_BUDGET)`.
An argument is none when the RPC errors out (supabase then yields null data).
The flag projectGiven mirrors the surrounding `if (projectId)`.  Note the
function receives no information about the cost of the call being admitted. -/
def checkBudget (userCost : Option ℚ) (projectGiven : Bool) (projectCost : Option ℚ) :
    BudgetResult :=
  if numTruthy userCost ∧ userCost.getD 0 ≥ USER_DAILY_BUDGET then
    ⟨false, some "User daily budget exceeded"⟩
  else if projectGiven ∧ numTruthy projectCost ∧ projectCost.getD 0 ≥ PROJECT_DAILY_BUDGET then
    ⟨false, some "Project daily budget exceeded"⟩
  else
    ⟨true, none⟩

/- ## Cost table (ai-proxy/index.ts lines 16-35) -/

/-- Pricing entry per 1K tokens. -/
structure Pricing where
  input : ℚ
  output : ℚ
  deriving DecidableEq, Repr

/-- The gpt-4 entry of the cost table (also the fallback for unknown models). -/
def gpt4Pricing : Pricing := ⟨0.03, 0.06⟩

/-- The COST_PER_1K_TOKENS record from ai-proxy/index.ts. -/
def COST_PER_1K_TOKENS : List (String × Pricing) :=
  [("gpt-4", gpt4Pricing),
   ("gpt-4-turbo", ⟨0.01, 0.03⟩),
   ("gpt-3.5-turbo", ⟨0.0015, 0.002⟩),
   ("claude-3-opus", ⟨0.015, 0.075⟩),
   ("claude-3-sonnet", ⟨0.003, 0.015⟩),
   ("claude-3-haiku", ⟨0.00025, 0.00125⟩)]

/-- Property access COST_PER_1K_TOKENS[model], which may be undefined. -/
def lookupPricing (model : String) : Option Pricing :=
  (COST_PER_1K_TOKENS.find? (fun kv => kv.1 = model)).map (fun kv => kv.2)

/-- Function calculateCost: pricing is COST_PER_1K_TOKENS[model] with fallback
to the gpt-4 entry, then
(tokensIn / 1000) * pricing.input + (tokensOut / 1000) * pricing.output. -/
def calculateCost (model : String) (tokensIn tokensOut : ℚ) : ℚ :=
  let pricing := (lookupPricing model).getD gpt4Pricing
  let inputCost := (tokensIn / 1000) * pricing.input
  let outputCost := (tokensOut / 1000) * pricing.output
  inputCost + outputCost

/- ## Metered-call pipeline after validation (ai-proxy/index.ts lines 181-264) -/

/-- Outcome of the call to the external AI provider capability. -/
inductive ProviderOutcome where
  | success (result : String) (tokensIn tokensOut : ℚ)
  | failure (msg : String)
  deriving DecidableEq, Repr

/-- Result of the metered stage: the HTTP status of the response and the
ai_usage rows whose insertion was attempted along the way. -/
structure AIGatewayResult where
  status : ℕ
  records : List UsageRecord
  deriving DecidableEq, Repr

/-- Function recordAIUsage of ai-proxy/index.ts: the ai_usage row it inserts. -/
def recordAIUsage (userId : String) (projectId : Option String) (provider model : String)
    (tokensIn tokensOut cost_usd : ℚ) (status : UsageStatus) (now : ℕ) : UsageRecord :=
  ⟨userId, projectId, provider, model, tokensIn, tokensOut, cost_usd, status, now⟩

/-- The serve handler of ai-proxy/index.ts from the budget check onward
(auth, rate limit and request validation already passed): a denied budget
records one zero-cost failed row and answers 402; a provider failure records
one zero-cost failed row and answers 502; success records one ok row carrying
calculateCost and answers 200. -/
def aiProxyMeteredStage (userId : String) (projectId : Option String)
    (provider model : String) (budget : BudgetResult) (outcome : ProviderOutcome)
    (now : ℕ) : AIGatewayResult :=
  if budget.allowed = false then
    ⟨402, [recordAIUsage userId projectId provider model 0 0 0 UsageStatus.failed now]⟩
  else
    match outcome with
    | ProviderOutcome.failure _ =>
        ⟨502, [recordAIUsage userId projectId provider model 0 0 0 UsageStatus.failed now]⟩
    | ProviderOutcome.success _ tin tout =>
        ⟨200, [recordAIUsage userId projectId provider model tin tout
                (calculateCost model tin tout) UsageStatus.ok now]⟩

/- ## Reducer (src/state/reducer.ts) -/

/-- Error raised by the TS reducer, split by its message text:
InvalidEvent for "Invalid event: ...", UnknownEventType for
"Unknown event type: ...", InvalidPayload for the payload validation
messages. -/
inductive ReducerError where
  | InvalidEvent (msg : String)
  | UnknownEventType (ty : String)
  | InvalidPayload (msg : String)
  deriving DecidableEq, Repr

/-- The ProjectSnapshot shape: currently only an optional name field. -/
structure ProjectSnapshot where
  name : Option String
  deriving DecidableEq, Repr

/-- The empty snapshot, i.e. a jsonb object with no keys. -/
def emptySnapshot : ProjectSnapshot := ⟨none⟩

/-- A runtime event value reaching the reducer: a type tag and a JSON payload.
The payload is kept as a raw JSON object because the runtime validation of the
reducer guards against ill-typed payloads itself. -/
structure EventIn where
  type : String
  payload : List (String × JsonVal)
  deriving DecidableEq, Repr

/-- Function applyRenameEvent of src/state/reducer.ts: the type-guard check,
then name must be a string, non-empty, and of length at most 200; on success
the snapshot is copied with the name field replaced. -/
def applyRenameEvent (snapshot : ProjectSnapshot) (event : EventIn) :
    Except ReducerError ProjectSnapshot :=
  if event.type = "project.rename" then
    match jsonLookup event.payload "name" with
    | some (JsonVal.jstr name) =>
        if name.length = 0 then
          Except.error (ReducerError.InvalidPayload "name cannot be empty")
        else if name.length > 200 then
          Except.error (ReducerError.InvalidPayload "name exceeds maximum length of 200")
        else
          Except.ok { snapshot with name := some name }
    | _ => Except.error (ReducerError.InvalidPayload "name must be a string")
  else
    Except.error (ReducerError.InvalidPayload "Invalid project.rename event structure")

/-- Function applyEvent of src/state/reducer.ts.  A falsy type (the empty
string) fails the `!event.type` guard with a generic invalid-event error
before the switch; the switch dispatches project.rename and throws
UnknownEventType on every other type. -/
def applyEvent (snapshot : ProjectSnapshot) (event : EventIn) :
    Except ReducerError ProjectSnapshot :=
  if event.type = "" then
    Except.error (ReducerError.InvalidEvent "must have a type string")
  else if event.type = "project.rename" then
    applyRenameEvent snapshot event
  else
    Except.error (ReducerError.UnknownEventType event.type)

/- ## Event store and atomic append+reduce (migration 0005, apply_project_event) -/

/-- One row of project_events for a single aggregate. -/
structure EventRow where
  project_id : String
  actor_id : String
  seq : ℕ
  type : String
  payload : List (String × JsonVal)
  deriving DecidableEq, Repr

/-- The projection row of one aggregate. -/
structure ProjectionRow where
  head_seq : ℕ
  snapshot : ProjectSnapshot
  deriving DecidableEq, Repr

/-- Persistent state of one aggregate: its event log and its projection row
(none before the lazily created initial row exists). -/
structure DbState where
  events : List EventRow
  projection : Option ProjectionRow
  deriving DecidableEq, Repr

/-- Head sequence as the endpoints read it: projection head_seq, or 0 when the
projection row does not exist yet. -/
def headSeqOf (db : DbState) : ℕ :=
  match db.projection with
  | some p => p.head_seq
  | none => 0

/-- Snapshot as apply_project_event reads it under the row lock. -/
def snapshotOf (db : DbState) : ProjectSnapshot :=
  match db.projection with
  | some p => p.snapshot
  | none => emptySnapshot

/-- Errors aborting the apply_project_event transaction. -/
inductive SqlError where
  | UnknownEventTypeErr (ty : String)
  | NullValueErr
  deriving DecidableEq, Repr

/-- SQL function apply_project_event: lock and read (head_seq, snapshot),
creating the initial (0, empty) row when missing; compute next_seq =
head_seq + 1; reduce inline (CASE on p_type, project.rename sets the name key
via jsonb_set of the text of payload->>name, any other type raises); insert
the event row at next_seq and update the projection.  A missing or null name
makes jsonb_set return NULL and the NOT NULL projection update abort, which is
modelled as NullValueErr.  An error means the whole transaction aborts. -/
def apply_project_event (db : DbState) (p_project_id p_actor_id : String)
    (p_type : String) (p_payload : List (String × JsonVal)) :
    Except SqlError ((ℕ × ProjectSnapshot) × DbState) :=
  let v_head_seq := headSeqOf db
  let v_current_snapshot := snapshotOf db
  let v_next_seq := v_head_seq + 1
  if p_type = "project.rename" then
    match jsonbTextOf (jsonLookup p_payload "name") with
    | some nm =>
        let v_new_snapshot := { v_current_snapshot with name := some nm }
        Except.ok ((v_next_seq, v_new_snapshot),
          { events := db.events ++ [⟨p_project_id, p_actor_id, v_next_seq, p_type, p_payload⟩],
            projection := some ⟨v_next_seq, v_new_snapshot⟩ })
    | none => Except.error SqlError.NullValueErr
  else
    Except.error (SqlError.UnknownEventTypeErr p_type)

/-- Transactional wrapper: an exception rolls the whole transaction back, so
the database state is returned unchanged alongside the error. -/
def apply_project_event_tx (db : DbState) (p_project_id p_actor_id : String)
    (p_type : String) (p_payload : List (String × JsonVal)) :
    Except SqlError (ℕ × ProjectSnapshot) × DbState :=
  match apply_project_event db p_project_id p_actor_id p_type p_payload with
  | Except.ok (r, db2) => (Except.ok r, db2)
  | Except.error e => (Except.error e, db)

/- ## Mutate endpoint commit path (supabase/functions/mutate/index.ts) -/

/-- A proposal as received by the mutate endpoint. -/
structure Proposal where
  type : String
  payload : List (String × JsonVal)
  deriving DecidableEq, Repr

/-- The zod ProposalSchema: type must be the literal project.rename and the
payload name must be a string of length between 1 and 200. -/
def ProposalSchema_check (p : Proposal) : Bool :=
  (p.type = "project.rename" : Bool) &&
  (match jsonLookup p.payload "name" with
   | some (JsonVal.jstr s) => decide (1 ≤ s.length) && decide (s.length ≤ 200)
   | _ => false)

/-- Responses of the mutate endpoint relevant to the commit path. -/
inductive MutateResponse where
  | committed (seq : ℕ) (snapshot : ProjectSnapshot)
  | invalidRequest
  | conflict (expected current : ℕ)
  | internalError
  deriving DecidableEq, Repr

/-- The RPC step of the endpoint: a successful apply answers 200 with the new
(seq, snapshot); an RPC error answers 500 and, the transaction having been
rolled back, leaves the database unchanged. -/
def mutateApplyStep (db : DbState) (projectId actorId : String) (proposal : Proposal) :
    MutateResponse × DbState :=
  match apply_project_event_tx db projectId actorId proposal.type proposal.payload with
  | (Except.ok (seq, snap), db2) => (MutateResponse.committed seq snap, db2)
  | (Except.error _, db2) => (MutateResponse.internalError, db2)

/-- The mutate endpoint after authentication, rate limiting and membership
checks: schema validation (400 on failure), then the optimistic concurrency
check when baseSeq is supplied (reading projection head_seq with default 0 and
answering 409 with expected/current on mismatch), then the atomic RPC. -/
def mutateCommit (db : DbState) (projectId actorId : String)
    (baseSeq : Option ℕ) (proposal : Proposal) : MutateResponse × DbState :=
  if ProposalSchema_check proposal = true then
    match baseSeq with
    | some b =>
        if headSeqOf db ≠ b then
          (MutateResponse.conflict b (headSeqOf db), db)
        else
          mutateApplyStep db projectId actorId proposal
    | none => mutateApplyStep db projectId actorId proposal
  else
    (MutateResponse.invalidRequest, db)

/-- One commit request against the aggregate. -/
structure CommitRequest where
  baseSeq : Option ℕ
  proposal : Proposal
  deriving DecidableEq, Repr

/-- Sequential run of commit requests against one aggregate. -/
def runCommits (projectId actorId : String) :
    DbState → List CommitRequest → List MutateResponse × DbState
  | db, [] => ([], db)
  | db, r :: rs =>
      let step := mutateCommit db projectId actorId r.baseSeq r.proposal
      let rest := runCommits projectId actorId step.2 rs
      (step.1 :: rest.1, rest.2)

/-- Sequence numbers of the successful commits among a list of responses. -/
def okSeqs : List MutateResponse → List ℕ
  | [] => []
  | MutateResponse.committed s _ :: rest => s :: okSeqs rest
  | _ :: rest => okSeqs rest

/-- Consecutive sequence numbers start, start+1, ..., start+k-1. -/
def seqRange (start : ℕ) : ℕ → List ℕ
  | 0 => []
  | k + 1 => start :: seqRange (start + 1) k

/- ## Rate limiter (_shared/rateLimit.ts and the check_rate_limit migration) -/

/-- RATE_LIMIT_WINDOW = 60 seconds (_shared/rateLimit.ts line 39). -/
def RATE_LIMIT_WINDOW : ℕ := 60

/-- RATE_LIMIT_MAX_REQUESTS = 30 per window (_shared/rateLimit.ts line 40). -/
def RATE_LIMIT_MAX_REQUESTS : ℕ := 30

/-- The rate_limits row of one key (the key column is UNIQUE, so one row). -/
structure RateRow where
  window_start : ℕ
  count : ℕ
  deriving DecidableEq, Repr

/-- Window start as computed by the SQL function: now truncated to a second,
minus (second-within-minute mod p_window_seconds) seconds.  Time is modelled
as integral epoch seconds, so the second within the minute is now % 60. -/
def windowStartOf (now winSec : ℕ) : ℕ := now - (now % 60) % winSec

/-- SQL function check_rate_limit: read the count of the row at the current
window; when absent, insert (or, on key conflict, reset a row of an older
window) with count 1 and allow; when present at or over p_max_requests, deny;
otherwise increment and allow. -/
def check_rate_limit (row : Option RateRow) (now p_window_seconds p_max_requests : ℕ) :
    Bool × Option RateRow :=
  let ws := windowStartOf now p_window_seconds
  match row with
  | some r =>
      if r.window_start = ws then
        if r.count ≥ p_max_requests then
          (false, some r)
        else
          (true, some ⟨ws, r.count + 1⟩)
      else
        if r.window_start < ws then (true, some ⟨ws, 1⟩) else (true, some r)
  | none => (true, some ⟨ws, 1⟩)

/-- Return shape of the TS wrapper checkRateLimit. -/
structure RateLimitResult where
  allowed : Bool
  retryAfter : Option ℕ
  deriving DecidableEq, Repr

/-- TS wrapper checkRateLimit of _shared/rateLimit.ts: calls the RPC with the
window and maximum constants and, on denial, reports retryAfter equal to
RATE_LIMIT_WINDOW. -/
def checkRateLimit (row : Option RateRow) (now : ℕ) : RateLimitResult × Option RateRow :=
  let step := check_rate_limit row now RATE_LIMIT_WINDOW RATE_LIMIT_MAX_REQUESTS
  if step.1 = false then
    (⟨false, some RATE_LIMIT_WINDOW⟩, step.2)
  else
    (⟨true, none⟩, step.2)

/-- Sequential run of rate-limited requests of one principal at the given
times. -/
def runRateCalls : Option RateRow → List ℕ → List RateLimitResult × Option RateRow
  | row, [] => ([], row)
  | row, t :: ts =>
      let step := checkRateLimit row t
      let rest := runRateCalls step.2 ts
      (step.1 :: rest.1, rest.2)

/- ## Concrete inputs used by witnesses -/

/-- A ledger row of user alice with 9.00 USD of ok spend today. -/
def okNineRecord : UsageRecord :=
  ⟨"alice", none, "openai", "gpt-4", 0, 0, 9, UsageStatus.ok, 50⟩

/-- A ledger row of user alice with 5.00 USD of failed spend today. -/
def failedFiveRecord : UsageRecord :=
  ⟨"alice", none, "openai", "gpt-4", 0, 0, 5, UsageStatus.failed, 50⟩

/-- A valid rename proposal carrying the name Foo. -/
def renameFooProposal : Proposal :=
  ⟨"project.rename", [("name", JsonVal.jstr "Foo")]⟩

/-- A valid rename proposal carrying the name Bar. -/
def renameBarProposal : Proposal :=
  ⟨"project.rename", [("name", JsonVal.jstr "Bar")]⟩

/-- An aggregate sitting at head sequence 5. -/
def dbAtFive : DbState := ⟨[], some ⟨5, ⟨some "Foo"⟩⟩⟩

/-- A fresh aggregate: no events, no projection row yet. -/
def dbEmpty : DbState := ⟨[], none⟩

/- ## Theorems -/

/-- Helper: the admission decision of checkBudget, unfolded. -/
theorem checkBudget_allowed_iff (uc : Option ℚ) (pg : Bool) (pc : Option ℚ) :
    (checkBudget uc pg pc).allowed = true ↔
      (¬(numTruthy uc = true ∧ uc.getD 0 ≥ USER_DAILY_BUDGET) ∧
       ¬(pg = true ∧ numTruthy pc = true ∧ pc.getD 0 ≥ PROJECT_DAILY_BUDGET)) := by
  unfold checkBudget
  by_cases h1 : numTruthy uc = true ∧ uc.getD 0 ≥ USER_DAILY_BUDGET
  · rw [if_pos (by tauto)]
    simp only [Bool.false_eq_true, false_iff]
    tauto
  · rw [if_neg (by tauto)]
    by_cases h2 : pg = true ∧ numTruthy pc = true ∧ pc.getD 0 ≥ PROJECT_DAILY_BUDGET
    · rw [if_pos (by tauto)]
      simp only [Bool.false_eq_true, false_iff]
      tauto
    · rw [if_neg (by tauto)]
      simp only [true_iff]
      tauto

/-- C2 counterexample: a principal with exactly 10.00 USD of prior ok spend is
NOT allowed another call — checkBudget denies it, because the guard condition
is userCost >= USER_DAILY_BUDGET, which holds at equality. -/
theorem budget_exact_cap_counterexample :
    (checkBudget (some 10) false none).allowed = false := by
  norm_num [checkBudget, numTruthy, USER_DAILY_BUDGET]

/-- C2 (amended): the budget check denies whenever prior ok spend is at or
above the 10.00 USD user cap (so exactly 10.00 is denied), and allows whenever
prior spend is strictly below the cap. -/
theorem budget_boundary_at_cap (u : ℚ) :
    (USER_DAILY_BUDGET ≤ u → (checkBudget (some u) false none).allowed = false) ∧
    (0 ≤ u → u < USER_DAILY_BUDGET → (checkBudget (some u) false none).allowed = true) := by
  constructor
  · intro h
    have hu : ¬u = 0 := by
      intro h0
      rw [h0] at h
      norm_num [USER_DAILY_BUDGET] at h
    unfold checkBudget
    rw [if_pos]
    constructor
    · simp [numTruthy, hu]
    · simpa using h
  · intro h0 h1
    rw [checkBudget_allowed_iff]
    refine ⟨?_, by simp⟩
    rintro ⟨-, hge⟩
    simp only [Option.getD_some] at hge
    exact absurd hge (not_le.mpr h1)

/-- C2 witness: denied at exactly 10.00, allowed at 9.99. -/
theorem budget_boundary_at_cap_witness :
    (checkBudget (some 10) false none).allowed = false ∧
    (checkBudget (some (999/100)) false none).allowed = true :=
  ⟨(budget_boundary_at_cap 10).1 (by norm_num [USER_DAILY_BUDGET]),
   (budget_boundary_at_cap (999/100)).2 (by norm_num) (by norm_num [USER_DAILY_BUDGET])⟩

/-- C3: checkBudget never sees the prospective cost of the current call; with
nonnegative prior daily ok spend, the call is admitted exactly when the user
total is strictly below the user cap and, when a project is given, the project
total is strictly below the project cap.  Consequently a call of cost c that
is admitted can raise the user total only to strictly below cap + c: the
worst-case overspend is bounded by the cost of one call. -/
theorem budget_check_uses_prior_spend_only (u p c : ℚ) (pg : Bool)
    (hu : 0 ≤ u) (hp : 0 ≤ p) :
    ((checkBudget (some u) pg (some p)).allowed = true ↔
      (u < USER_DAILY_BUDGET ∧ (pg = true → p < PROJECT_DAILY_BUDGET))) ∧
    ((checkBudget (some u) pg (some p)).allowed = true →
      u + c < USER_DAILY_BUDGET + c) := by
  have hiff : (checkBudget (some u) pg (some p)).allowed = true ↔
      (u < USER_DAILY_BUDGET ∧ (pg = true → p < PROJECT_DAILY_BUDGET)) := by
    rw [checkBudget_allowed_iff]
    constructor
    · rintro ⟨h1, h2⟩
      constructor
      · by_contra hge
        push_neg at hge
        exact h1 ⟨by simp [numTruthy]; rintro rfl; norm_num [USER_DAILY_BUDGET] at hge, by simpa using hge⟩
      · intro hpg
        by_contra hge
        push_neg at hge
        exact h2 ⟨hpg, by simp [numTruthy]; rintro rfl; norm_num [PROJECT_DAILY_BUDGET] at hge, by simpa using hge⟩
    · rintro ⟨h1, h2⟩
      constructor
      · rintro ⟨-, hge⟩
        simp only [Option.getD_some] at hge
        exact absurd hge (not_le.mpr h1)
      · rintro ⟨hpg, -, hge⟩
        simp only [Option.getD_some] at hge
        exact absurd hge (not_le.mpr (h2 hpg))
  refine ⟨hiff, ?_⟩
  intro hall
  have := (hiff.mp hall).1
  linarith

/-- C3 witness: with 9 USD user spend, 4 USD project spend and a 5 USD call,
the call is admitted and the post-call total stays below cap plus one call. -/
theorem budget_check_uses_prior_spend_only_witness :
    (((checkBudget (some 9) true (some 4)).allowed = true ↔
      ((9:ℚ) < USER_DAILY_BUDGET ∧ (true = true → (4:ℚ) < PROJECT_DAILY_BUDGET))) ∧
     ((checkBudget (some 9) true (some 4)).allowed = true →
      (9:ℚ) + 5 < USER_DAILY_BUDGET + 5)) :=
  budget_check_uses_prior_spend_only 9 4 5 true (by norm_num) (by norm_num)

/-- C10: the budget guard fails open — a null RPC result (lookup failure) and
a zero prior spend are both falsy, so the corresponding cap is skipped: with
both lookups null the call is always allowed whatever the project context, a
null user lookup behaves exactly like zero spend, and a null project lookup
disables the project cap entirely. -/
theorem budget_fail_open (pg : Bool) (uc pc : Option ℚ) :
    (checkBudget none pg none).allowed = true ∧
    (checkBudget (some 0) pg (some 0)).allowed = true ∧
    checkBudget none pg pc = checkBudget (some 0) pg pc ∧
    checkBudget uc pg none = checkBudget uc false none := by
  refine ⟨?_, ?_, ?_, ?_⟩
  · simp [checkBudget, numTruthy]
  · simp [checkBudget, numTruthy]
  · unfold checkBudget
    norm_num [numTruthy]
  · unfold checkBudget
    norm_num [numTruthy]

/-- C5: only ok-status rows count toward the daily sums — a failed row
contributes nothing to get_user_ai_cost or get_project_ai_cost — and in
particular a principal with 9.00 USD of ok spend and 5.00 USD of failed spend
today is still allowed further calls. -/
theorem failed_records_excluded (r : UsageRecord) (rows : List UsageRecord)
    (user proj : String) (since : ℕ) (hr : r.status = UsageStatus.failed) :
    get_user_ai_cost (r :: rows) user since = get_user_ai_cost rows user since ∧
    get_project_ai_cost (r :: rows) proj since = get_project_ai_cost rows proj since ∧
    get_user_ai_cost [okNineRecord, failedFiveRecord] "alice" 0 = 9 ∧
    (checkBudget (some (get_user_ai_cost [okNineRecord, failedFiveRecord] "alice" 0))
      false none).allowed = true := by
  refine ⟨?_, ?_, ?_, ?_⟩
  · unfold get_user_ai_cost
    rw [List.filter_cons_of_neg]
    simp [hr]
  · unfold get_project_ai_cost
    rw [List.filter_cons_of_neg]
    simp [hr]
  · simp [get_user_ai_cost, okNineRecord, failedFiveRecord, List.filter]
  · have h9 : get_user_ai_cost [okNineRecord, failedFiveRecord] "alice" 0 = 9 := by
      simp [get_user_ai_cost, okNineRecord, failedFiveRecord, List.filter]
    rw [h9, checkBudget_allowed_iff]
    norm_num [numTruthy, USER_DAILY_BUDGET]

/-- C5 witness: the theorem applied to the concrete 5.00 USD failed row. -/
theorem failed_records_excluded_witness :
    get_user_ai_cost [failedFiveRecord, okNineRecord] "alice" 0 =
      get_user_ai_cost [okNineRecord] "alice" 0 ∧
    (checkBudget (some (get_user_ai_cost [okNineRecord, failedFiveRecord] "alice" 0))
      false none).allowed = true :=
  ⟨(failed_records_excluded failedFiveRecord [okNineRecord] "alice" "p" 0 rfl).1,
   (failed_records_excluded failedFiveRecord [okNineRecord] "alice" "p" 0 rfl).2.2.2⟩

/-- C8: the cost of a call is (tokens_in/1000) times the input price of the
model plus (tokens_out/1000) times its output price from the fixed table;
cost of gpt-4 at (1000, 500) tokens is 0.06 USD; a model absent from the
table is priced with the gpt-4 entries, so the computation is total. -/
theorem ai_cost_formula_and_fallback :
    calculateCost "gpt-4" 1000 500 = 0.06 ∧
    (∀ model tokensIn tokensOut, lookupPricing model = none →
      calculateCost model tokensIn tokensOut = calculateCost "gpt-4" tokensIn tokensOut) ∧
    (∀ model tokensIn tokensOut,
      calculateCost model tokensIn tokensOut =
        tokensIn / 1000 * ((lookupPricing model).getD gpt4Pricing).input +
        tokensOut / 1000 * ((lookupPricing model).getD gpt4Pricing).output) := by
  refine ⟨?_, ?_, ?_⟩
  · simp [calculateCost, lookupPricing, COST_PER_1K_TOKENS, gpt4Pricing]
    norm_num
  · intro model tin tout h
    unfold calculateCost
    rw [h]
    simp [lookupPricing, COST_PER_1K_TOKENS]
  · intro model tin tout
    rfl

/-- C8 witness: an unknown model falls back to gpt-4 pricing. -/
theorem ai_cost_formula_and_fallback_witness :
    calculateCost "unknown-model" 1000 500 = calculateCost "gpt-4" 1000 500 :=
  ai_cost_formula_and_fallback.2.1 "unknown-model" 1000 500
    (by simp [lookupPricing, COST_PER_1K_TOKENS])

/-- C4: the metered stage always attempts exactly one ledger insertion — a
budget denial records one zero-cost failed row before the 402 response, a
provider failure records one zero-cost failed row before the 502 response,
and a success records one ok row carrying calculateCost with the 200
response. -/
theorem ai_call_always_recorded (userId : String) (projectId : Option String)
    (provider model result msg : String) (reason : Option String)
    (tin tout : ℚ) (now : ℕ) (outcome : ProviderOutcome) (budget : BudgetResult) :
    (aiProxyMeteredStage userId projectId provider model ⟨false, reason⟩ outcome now =
      ⟨402, [recordAIUsage userId projectId provider model 0 0 0 UsageStatus.failed now]⟩) ∧
    (aiProxyMeteredStage userId projectId provider model ⟨true, reason⟩
        (ProviderOutcome.failure msg) now =
      ⟨502, [recordAIUsage userId projectId provider model 0 0 0 UsageStatus.failed now]⟩) ∧
    (aiProxyMeteredStage userId projectId provider model ⟨true, reason⟩
        (ProviderOutcome.success result tin tout) now =
      ⟨200, [recordAIUsage userId projectId provider model tin tout
              (calculateCost model tin tout) UsageStatus.ok now]⟩) ∧
    (aiProxyMeteredStage userId projectId provider model budget outcome now).records.length
      = 1 := by
  refine ⟨rfl, rfl, rfl, ?_⟩
  unfold aiProxyMeteredStage
  rcases budget with ⟨a, r⟩
  cases a <;> cases outcome <;> simp

/-- C6 counterexample: the TS reducer applied to an event whose type is the
empty string — a type outside the recognized vocabulary — fails with the
generic invalid-event error of the falsy-type guard, not with an
UnknownEventType error as the claim states. -/
theorem unknown_event_type_counterexample :
    applyEvent emptySnapshot ⟨"", []⟩ =
      Except.error (ReducerError.InvalidEvent "must have a type string") ∧
    applyEvent emptySnapshot ⟨"", []⟩ ≠
      Except.error (ReducerError.UnknownEventType "") := by
  decide

/-- C6 (amended): applying an event whose type is outside the recognized
vocabulary always fails and never silently no-ops — with an UnknownEventType
error whenever the type is a non-empty string, and with a generic
invalid-event error for the empty-string type — and when an unrecognized type
reaches the atomic append+reduce step the whole transaction aborts: the
returned state equals the input state, so no event row is inserted and the
projection is unchanged. -/
theorem unknown_event_type_rejected (s : ProjectSnapshot) (e : EventIn) (db : DbState)
    (pid aid : String) (h : e.type ≠ "project.rename") :
    (e.type ≠ "" → applyEvent s e = Except.error (ReducerError.UnknownEventType e.type)) ∧
    (e.type = "" → applyEvent s e = Except.error (ReducerError.InvalidEvent "must have a type string")) ∧
    apply_project_event_tx db pid aid e.type e.payload =
      (Except.error (SqlError.UnknownEventTypeErr e.type), db) := by
  refine ⟨?_, ?_, ?_⟩
  · intro hne
    simp [applyEvent, hne, h]
  · intro he
    simp [applyEvent, he]
  · simp [apply_project_event_tx, apply_project_event, h]

/-- C6 witness: the bogus event type of the spec example. -/
theorem unknown_event_type_rejected_witness :
    applyEvent emptySnapshot ⟨"bogus", []⟩ =
      Except.error (ReducerError.UnknownEventType "bogus") ∧
    apply_project_event_tx dbEmpty "p" "a" "bogus" [] =
      (Except.error (SqlError.UnknownEventTypeErr "bogus"), dbEmpty) :=
  ⟨(unknown_event_type_rejected emptySnapshot ⟨"bogus", []⟩ dbEmpty "p" "a"
      (by decide)).1 (by decide),
   (unknown_event_type_rejected emptySnapshot ⟨"bogus", []⟩ dbEmpty "p" "a"
      (by decide)).2.2⟩

/-- C7: the rename payload validation of the reducer accepts exactly the
string names of length 1..200 — for every snapshot a 200-character name
succeeds (copying the snapshot with the new name), a name longer than 200
characters fails with the length InvalidPayload error, the empty string fails
with the emptiness InvalidPayload error, and a non-string name fails with the
type InvalidPayload error. -/
theorem rename_payload_validation (s : ProjectSnapshot) (nm : String) (v : JsonVal) :
    (1 ≤ nm.length → nm.length ≤ 200 →
      applyEvent s ⟨"project.rename", [("name", JsonVal.jstr nm)]⟩ =
        Except.ok { s with name := some nm }) ∧
    (200 < nm.length →
      applyEvent s ⟨"project.rename", [("name", JsonVal.jstr nm)]⟩ =
        Except.error (ReducerError.InvalidPayload "name exceeds maximum length of 200")) ∧
    (applyEvent s ⟨"project.rename", [("name", JsonVal.jstr "")]⟩ =
      Except.error (ReducerError.InvalidPayload "name cannot be empty")) ∧
    ((∀ str, v ≠ JsonVal.jstr str) →
      applyEvent s ⟨"project.rename", [("name", v)]⟩ =
        Except.error (ReducerError.InvalidPayload "name must be a string")) ∧
    ((∃ s2, applyEvent s ⟨"project.rename", [("name", v)]⟩ = Except.ok s2) ↔
      (∃ nm2, v = JsonVal.jstr nm2 ∧ 1 ≤ nm2.length ∧ nm2.length ≤ 200)) := by
  refine ⟨?_, ?_, ?_, ?_, ?_⟩
  · intro h1 h200
    simp [applyEvent, applyRenameEvent, jsonLookup]
    rw [if_neg (by omega), if_neg (by omega)]
  · intro h200
    simp [applyEvent, applyRenameEvent, jsonLookup]
    rw [if_neg (by omega), if_pos (by omega)]
  · simp [applyEvent, applyRenameEvent, jsonLookup]
  · intro hv
    cases v with
    | jstr str => exact absurd rfl (hv str)
    | jnum q => simp [applyEvent, applyRenameEvent, jsonLookup]
    | jbool b => simp [applyEvent, applyRenameEvent, jsonLookup]
    | jnull => simp [applyEvent, applyRenameEvent, jsonLookup]
  · constructor
    · rintro ⟨s2, hs2⟩
      cases v with
      | jstr str =>
        refine ⟨str, rfl, ?_⟩
        simp [applyEvent, applyRenameEvent, jsonLookup] at hs2
        split_ifs at hs2 with h0 h200
        omega
      | jnum q => simp [applyEvent, applyRenameEvent, jsonLookup] at hs2
      | jbool b => simp [applyEvent, applyRenameEvent, jsonLookup] at hs2
      | jnull => simp [applyEvent, applyRenameEvent, jsonLookup] at hs2
    · rintro ⟨nm2, rfl, h1, h200⟩
      refine ⟨{ s with name := some nm2 }, ?_⟩
      simp [applyEvent, applyRenameEvent, jsonLookup]
      rw [if_neg (by omega), if_neg (by omega)]

set_option maxRecDepth 8000 in
/-- C7 witness: a 200-character name succeeds, a 201-character name fails
with the length error, the empty string fails with the emptiness error, and
a numeric name fails with the type error. -/
theorem rename_payload_validation_witness :
    applyEvent emptySnapshot
        ⟨"project.rename", [("name", JsonVal.jstr (String.mk (List.replicate 200 'a')))]⟩ =
      Except.ok ⟨some (String.mk (List.replicate 200 'a'))⟩ ∧
    applyEvent emptySnapshot
        ⟨"project.rename", [("name", JsonVal.jstr (String.mk (List.replicate 201 'a')))]⟩ =
      Except.error (ReducerError.InvalidPayload "name exceeds maximum length of 200") ∧
    applyEvent emptySnapshot ⟨"project.rename", [("name", JsonVal.jstr "")]⟩ =
      Except.error (ReducerError.InvalidPayload "name cannot be empty") ∧
    applyEvent emptySnapshot ⟨"project.rename", [("name", JsonVal.jnum 123)]⟩ =
      Except.error (ReducerError.InvalidPayload "name must be a string") :=
  ⟨(rename_payload_validation emptySnapshot (String.mk (List.replicate 200 'a'))
      JsonVal.jnull).1 (by decide) (by decide),
   (rename_payload_validation emptySnapshot (String.mk (List.replicate 201 'a'))
      JsonVal.jnull).2.1 (by decide),
   (rename_payload_validation emptySnapshot "x" JsonVal.jnull).2.2.1,
   (rename_payload_validation emptySnapshot "x" (JsonVal.jnum 123)).2.2.2.1
     (fun str h => JsonVal.noConfusion h)⟩

/-- Helper: one step of runRateCalls. -/
theorem runRateCalls_cons (row : Option RateRow) (t : ℕ) (ts : List ℕ) :
    runRateCalls row (t :: ts) =
      ((checkRateLimit row t).1 :: (runRateCalls (checkRateLimit row t).2 ts).1,
       (runRateCalls (checkRateLimit row t).2 ts).2) := rfl

/-- Helper: runRateCalls distributes over list append. -/
theorem runRateCalls_append (row : Option RateRow) (xs ys : List ℕ) :
    runRateCalls row (xs ++ ys) =
      ((runRateCalls row xs).1 ++ (runRateCalls (runRateCalls row xs).2 ys).1,
       (runRateCalls (runRateCalls row xs).2 ys).2) := by
  induction xs generalizing row with
  | nil => simp [runRateCalls]
  | cons t ts ih => simp [runRateCalls, ih]

/-- Helper: while the counter stays within the maximum, every call inside the
current window is allowed and increments the counter by one. -/
theorem runRateCalls_within_window (ts : List ℕ) (w c : ℕ)
    (hw : ∀ t ∈ ts, windowStartOf t RATE_LIMIT_WINDOW = w)
    (hc : c + ts.length ≤ RATE_LIMIT_MAX_REQUESTS) :
    runRateCalls (some ⟨w, c⟩) ts =
      (List.replicate ts.length ⟨true, none⟩, some ⟨w, c + ts.length⟩) := by
  induction ts generalizing c with
  | nil => simp [runRateCalls]
  | cons t ts ih =>
    have hwt : windowStartOf t RATE_LIMIT_WINDOW = w := hw t (by simp)
    have hlt : ¬ c ≥ RATE_LIMIT_MAX_REQUESTS := by
      simp only [List.length_cons] at hc
      unfold RATE_LIMIT_MAX_REQUESTS at hc ⊢
      omega
    have hstep : checkRateLimit (some ⟨w, c⟩) t = (⟨true, none⟩, some ⟨w, c + 1⟩) := by
      simp [checkRateLimit, check_rate_limit, hwt, hlt]
    have hrest := ih (c + 1) (fun t2 ht2 => hw t2 (by simp [ht2]))
      (by simp only [List.length_cons] at hc; omega)
    rw [runRateCalls_cons, hstep]
    simp only [hrest, List.length_cons, List.replicate_succ]
    rw [show c + 1 + ts.length = c + (ts.length + 1) from by omega]

/-- C9: within one fixed window of a principal starting fresh, the first 30
requests are allowed, the 31st in the same window is denied with a positive
retry-after hint equal to the 60-second window length, and the first request
in the next window is allowed again with the counter reset to 1. -/
theorem rate_limit_window_scenario (ts : List ℕ) (t31 tNext w wNext : ℕ)
    (hlen : ts.length = 30)
    (hw : ∀ t ∈ ts, windowStartOf t RATE_LIMIT_WINDOW = w)
    (h31 : windowStartOf t31 RATE_LIMIT_WINDOW = w)
    (hNext : windowStartOf tNext RATE_LIMIT_WINDOW = wNext)
    (hlt : w < wNext) :
    runRateCalls none (ts ++ [t31, tNext]) =
      (List.replicate 30 ⟨true, none⟩ ++
        [⟨false, some RATE_LIMIT_WINDOW⟩, ⟨true, none⟩], some ⟨wNext, 1⟩) ∧
    RATE_LIMIT_WINDOW = 60 ∧ 0 < RATE_LIMIT_WINDOW := by
  refine ⟨?_, rfl, by norm_num [RATE_LIMIT_WINDOW]⟩
  cases ts with
  | nil => simp at hlen
  | cons t0 rest =>
    have hw0 : windowStartOf t0 RATE_LIMIT_WINDOW = w := hw t0 (by simp)
    have hlen29 : rest.length = 29 := by simpa using hlen
    have hstep0 : checkRateLimit none t0 = (⟨true, none⟩, some ⟨w, 1⟩) := by
      simp [checkRateLimit, check_rate_limit, hw0]
    have hrest : runRateCalls (some ⟨w, 1⟩) rest =
        (List.replicate 29 ⟨true, none⟩, some ⟨w, 30⟩) := by
      have h2 := runRateCalls_within_window rest w 1
        (fun t2 ht2 => hw t2 (by simp [ht2]))
        (by rw [hlen29]; norm_num [RATE_LIMIT_MAX_REQUESTS])
      rw [hlen29] at h2
      simpa using h2
    have hdeny : checkRateLimit (some ⟨w, 30⟩) t31 =
        (⟨false, some RATE_LIMIT_WINDOW⟩, some ⟨w, 30⟩) := by
      unfold checkRateLimit check_rate_limit
      rw [h31]
      simp [RATE_LIMIT_MAX_REQUESTS]
    have hreset : checkRateLimit (some ⟨w, 30⟩) tNext =
        (⟨true, none⟩, some ⟨wNext, 1⟩) := by
      unfold checkRateLimit check_rate_limit
      rw [hNext]
      simp [Nat.ne_of_lt hlt, hlt]
    rw [List.cons_append, runRateCalls_cons, hstep0]
    simp only [runRateCalls_append, hrest]
    rw [runRateCalls_cons]
    simp only [hdeny]
    rw [runRateCalls_cons]
    simp only [hreset]
    simp [runRateCalls, List.replicate_succ, show (30:ℕ) = 29 + 1 from rfl]

/-- C9 witness: thirty requests at seconds 0..29, a 31st at second 30, and
one more at second 60 (the next window). -/
theorem rate_limit_window_scenario_witness :
    runRateCalls none (List.range 30 ++ [30, 60]) =
      (List.replicate 30 ⟨true, none⟩ ++
        [⟨false, some RATE_LIMIT_WINDOW⟩, ⟨true, none⟩], some ⟨60, 1⟩) ∧
    RATE_LIMIT_WINDOW = 60 ∧ 0 < RATE_LIMIT_WINDOW :=
  rate_limit_window_scenario (List.range 30) 30 60 0 60
    (by decide) (by decide) (by decide) (by decide) (by decide)

/-- Helper: a proposal passing the zod schema has the rename type and a
string name in its payload. -/
theorem schema_check_gives_name (p : Proposal) (h : ProposalSchema_check p = true) :
    p.type = "project.rename" ∧
    ∃ nm, jsonLookup p.payload "name" = some (JsonVal.jstr nm) := by
  unfold ProposalSchema_check at h
  rw [Bool.and_eq_true] at h
  obtain ⟨h1, h2⟩ := h
  refine ⟨by simpa using h1, ?_⟩
  cases hl : jsonLookup p.payload "name" with
  | none => rw [hl] at h2; simp at h2
  | some v =>
    cases v with
    | jstr s => exact ⟨s, rfl⟩
    | jnum q => rw [hl] at h2; simp at h2
    | jbool b2 => rw [hl] at h2; simp at h2
    | jnull => rw [hl] at h2; simp at h2

/-- Helper: on a schema-valid proposal the atomic RPC succeeds, appending the
event row at head_seq + 1 and advancing the projection to head_seq + 1. -/
theorem apply_project_event_schema_ok (db : DbState) (pid aid : String) (p : Proposal)
    (h : ProposalSchema_check p = true) :
    ∃ nm, apply_project_event db pid aid p.type p.payload =
      Except.ok ((headSeqOf db + 1, { snapshotOf db with name := some nm }),
        ⟨db.events ++ [⟨pid, aid, headSeqOf db + 1, p.type, p.payload⟩],
         some ⟨headSeqOf db + 1, { snapshotOf db with name := some nm }⟩⟩) := by
  obtain ⟨hty, nm, hnm⟩ := schema_check_gives_name p h
  refine ⟨nm, ?_⟩
  unfold apply_project_event
  rw [hty, hnm]
  simp [jsonbTextOf]

/-- Helper: one step of runCommits. -/
theorem runCommits_cons (pid aid : String) (db : DbState) (r : CommitRequest)
    (rs : List CommitRequest) :
    runCommits pid aid db (r :: rs) =
      ((mutateCommit db pid aid r.baseSeq r.proposal).1 ::
        (runCommits pid aid (mutateCommit db pid aid r.baseSeq r.proposal).2 rs).1,
       (runCommits pid aid (mutateCommit db pid aid r.baseSeq r.proposal).2 rs).2) := rfl

/-- Helper: okSeqs skips a non-committed response. -/
theorem okSeqs_cons_of_not_committed (m : MutateResponse) (l : List MutateResponse)
    (h : ∀ s snap, m ≠ MutateResponse.committed s snap) :
    okSeqs (m :: l) = okSeqs l := by
  cases m with
  | committed s snap => exact absurd rfl (h s snap)
  | invalidRequest => rfl
  | conflict a b => rfl
  | internalError => rfl

/-- Helper: every commit attempt either succeeds with sequence head_seq + 1
and a database whose head advanced by exactly one, or fails leaving the
database unchanged and returning no committed response. -/
theorem mutateCommit_step (db : DbState) (pid aid : String) (bs : Option ℕ)
    (p : Proposal) :
    (∃ snap db2, mutateCommit db pid aid bs p =
        (MutateResponse.committed (headSeqOf db + 1) snap, db2) ∧
      headSeqOf db2 = headSeqOf db + 1) ∨
    ((mutateCommit db pid aid bs p).2 = db ∧
      ∀ s2 snap2, (mutateCommit db pid aid bs p).1 ≠ MutateResponse.committed s2 snap2) := by
  by_cases hs : ProposalSchema_check p = true
  · obtain ⟨nm, happ⟩ := apply_project_event_schema_ok db pid aid p hs
    cases bs with
    | none =>
      left
      exact ⟨{ snapshotOf db with name := some nm },
        ⟨db.events ++ [⟨pid, aid, headSeqOf db + 1, p.type, p.payload⟩],
         some ⟨headSeqOf db + 1, { snapshotOf db with name := some nm }⟩⟩,
        by simp [mutateCommit, hs, mutateApplyStep, apply_project_event_tx, happ],
        by simp [headSeqOf]⟩
    | some b =>
      by_cases hb : headSeqOf db ≠ b
      · right
        constructor
        · simp [mutateCommit, hs, hb]
        · intro s2 snap2
          simp [mutateCommit, hs, hb]
      · left
        rw [not_not] at hb
        exact ⟨{ snapshotOf db with name := some nm },
          ⟨db.events ++ [⟨pid, aid, headSeqOf db + 1, p.type, p.payload⟩],
           some ⟨headSeqOf db + 1, { snapshotOf db with name := some nm }⟩⟩,
          by simp [mutateCommit, hs, hb, mutateApplyStep, apply_project_event_tx, happ],
          by simp [headSeqOf]⟩
  · right
    constructor
    · simp [mutateCommit, hs]
    · intro s2 snap2
      simp [mutateCommit, hs]

/-- Helper: seqRange produces exactly k numbers. -/
theorem seqRange_length (s k : ℕ) : (seqRange s k).length = k := by
  induction k generalizing s with
  | zero => rfl
  | succ n ih => simp [seqRange, ih]

/-- Helper: over any request list, the sequences of the successful commits
form the consecutive range starting right after the initial head sequence,
and the final head equals the initial head plus the number of successes. -/
theorem okSeqs_of_runCommits (pid aid : String) (reqs : List CommitRequest) (db : DbState) :
    okSeqs (runCommits pid aid db reqs).1 =
      seqRange (headSeqOf db + 1) (okSeqs (runCommits pid aid db reqs).1).length ∧
    headSeqOf (runCommits pid aid db reqs).2 =
      headSeqOf db + (okSeqs (runCommits pid aid db reqs).1).length := by
  induction reqs generalizing db with
  | nil => simp [runCommits, okSeqs, seqRange]
  | cons r rs ih =>
    rcases mutateCommit_step db pid aid r.baseSeq r.proposal with
      ⟨snap, db2, heq, hhead⟩ | ⟨hdb, hne⟩
    · rw [runCommits_cons, heq]
      simp only [okSeqs, List.length_cons]
      obtain ⟨ih1, ih2⟩ := ih db2
      rw [hhead] at ih1 ih2
      constructor
      · rw [ih1, seqRange_length]
        simp [seqRange]
      · rw [ih2, ih1, seqRange_length]
        omega
    · rw [runCommits_cons, hdb]
      rw [okSeqs_cons_of_not_committed _ _ hne]
      exact ih db

/-- C1: against an aggregate at head sequence n, a commit carrying a stale
base sequence b with b different from n is rejected as a 409 conflict
reporting the current head n and changes nothing, while a schema-valid commit
with base sequence n — or with the base sequence omitted — succeeds with the
committed event appended at sequence n + 1 and the head advanced to n + 1;
and over any sequence of commit attempts the successful sequence numbers form
the consecutive range starting at n + 1: they strictly increase by exactly 1
with no gaps and no duplicates. -/
theorem commit_optimistic_concurrency (db : DbState) (pid aid : String) (b : ℕ)
    (p : Proposal) (reqs : List CommitRequest) (hp : ProposalSchema_check p = true) :
    (b ≠ headSeqOf db →
      mutateCommit db pid aid (some b) p =
        (MutateResponse.conflict b (headSeqOf db), db)) ∧
    (∃ snap db2,
      mutateCommit db pid aid (some (headSeqOf db)) p =
        (MutateResponse.committed (headSeqOf db + 1) snap, db2) ∧
      mutateCommit db pid aid none p =
        (MutateResponse.committed (headSeqOf db + 1) snap, db2) ∧
      headSeqOf db2 = headSeqOf db + 1 ∧
      db2.events = db.events ++ [⟨pid, aid, headSeqOf db + 1, p.type, p.payload⟩]) ∧
    okSeqs (runCommits pid aid db reqs).1 =
      seqRange (headSeqOf db + 1) (okSeqs (runCommits pid aid db reqs).1).length := by
  refine ⟨?_, ?_, (okSeqs_of_runCommits pid aid reqs db).1⟩
  · intro hb
    have hb2 : headSeqOf db ≠ b := Ne.symm hb
    simp [mutateCommit, hp, hb2]
  · obtain ⟨nm, happ⟩ := apply_project_event_schema_ok db pid aid p hp
    refine ⟨{ snapshotOf db with name := some nm },
      ⟨db.events ++ [⟨pid, aid, headSeqOf db + 1, p.type, p.payload⟩],
       some ⟨headSeqOf db + 1, { snapshotOf db with name := some nm }⟩⟩, ?_, ?_, ?_, ?_⟩
    · simp [mutateCommit, hp, mutateApplyStep, apply_project_event_tx, happ]
    · simp [mutateCommit, hp, mutateApplyStep, apply_project_event_tx, happ]
    · simp [headSeqOf]
    · simp

/-- C1 witness: at head 5 a commit with base 4 conflicts reporting current 5;
a fresh aggregate taking a commit without base, one with base 1, and a stale
retry with base 1 commits exactly the consecutive sequences 1 and 2. -/
theorem commit_optimistic_concurrency_witness :
    mutateCommit dbAtFive "p" "a" (some 4) renameBarProposal =
      (MutateResponse.conflict 4 5, dbAtFive) ∧
    okSeqs (runCommits "p" "a" dbEmpty
        [⟨none, renameFooProposal⟩, ⟨some 1, renameBarProposal⟩,
         ⟨some 1, renameBarProposal⟩]).1 =
      seqRange 1 (okSeqs (runCommits "p" "a" dbEmpty
        [⟨none, renameFooProposal⟩, ⟨some 1, renameBarProposal⟩,
         ⟨some 1, renameBarProposal⟩]).1).length :=
  ⟨(commit_optimistic_concurrency dbAtFive "p" "a" 4 renameBarProposal []
      (by decide)).1 (by decide),
   (commit_optimistic_concurrency dbEmpty "p" "a" 0 renameFooProposal
      [⟨none, renameFooProposal⟩, ⟨some 1, renameBarProposal⟩,
       ⟨some 1, renameBarProposal⟩] (by decide)).2.2⟩
